import Mathlib

/-!
Verification development for the `two-layer-model` repository
(`rscm-core`: time axis, timeseries, interpolation, model builder and runner).

Shallow embedding conventions:
* Rust `f32` values (`Time` and data values) are modelled as exact
  rationals `ℚ`; the claims under study concern control flow and exact
  arithmetic identities, not rounding.
* The NaN sentinel used by `Timeseries` is modelled by `Option ℚ`
  (`none` = NaN), called `FloatVal` below.
* Rust panics (`assert!`, `unwrap`, out-of-bounds indexing) are modelled
  by `Except String`; `.error` marks a panic.
* `ndarray::Array1` is modelled by `List`.
-/

/-- Time values (`pub type Time = f32;`, timeseries.rs). -/
abbrev Time := ℚ

/-- A stored data value: `none` models the NaN sentinel (`T::nan()`). -/
abbrev FloatVal := Option ℚ

/-- `x.is_nan()` on the embedded value type. -/
def FloatVal.isNan (x : FloatVal) : Bool := x.isNone

/-- `check_monotonic_increasing` (timeseries.rs:18-23): zips
`arr[0..len-1]` with `arr[1..]` and checks `b > a` for every pair. -/
def check_monotonic_increasing (arr : List Time) : Bool :=
  (List.zip (arr.take (arr.length - 1)) (arr.drop 1)).all (fun p => p.1 < p.2)

/-- `TimeAxis` (timeseries.rs:14-16): a sequence of step bounds. -/
structure TimeAxis where
  bounds : List Time
deriving DecidableEq

/-- `TimeAxis::new` (timeseries.rs:36-41): asserts monotonicity. -/
def TimeAxis.new (bounds : List Time) : Except String TimeAxis :=
  if check_monotonic_increasing bounds then .ok { bounds := bounds }
  else .error "assertion failed: is_monotonic"

/-- `TimeAxis::len` (timeseries.rs:90-92): number of steps, `bounds.len() - 1`. -/
def TimeAxis.len (ta : TimeAxis) : Nat := ta.bounds.length - 1

/-- `TimeAxis::values` (timeseries.rs:85-87): `bounds[0..len]`. -/
def TimeAxis.values (ta : TimeAxis) : List Time := ta.bounds.take ta.len

/-- `TimeAxis::from_values` (timeseries.rs:56-67): requires more than two
values, appends a synthetic trailing bound and delegates to `new`. -/
def TimeAxis.from_values (values : List Time) : Except String TimeAxis :=
  if values.length > 2 then
    let step := values.getD (values.length - 1) 0 - values.getD (values.length - 2) 0
    let bounds := values ++ [values.getD (values.length - 1) 0 + step]
    TimeAxis.new bounds
  else .error "assertion failed: values.len() > 2"

/-- `TimeAxis::from_bounds` (timeseries.rs:79-83): requires more than one
bound and constructs the axis directly, WITHOUT the monotonicity check
performed by `TimeAxis::new` (it builds `Self { bounds }` itself). -/
def TimeAxis.from_bounds (bounds : List Time) : Except String TimeAxis :=
  if bounds.length > 1 then .ok { bounds := bounds }
  else .error "assertion failed: bounds.len() > 1"

/-- `TimeAxis::at` (timeseries.rs:123-129). -/
def TimeAxis.at (ta : TimeAxis) (index : Nat) : Option Time :=
  if index < ta.len then some (ta.bounds.getD index 0) else none

/-- `TimeAxis::at_bounds` (timeseries.rs:132-139). -/
def TimeAxis.at_bounds (ta : TimeAxis) (index : Nat) : Option (Time × Time) :=
  if index < ta.len then some (ta.bounds.getD index 0, ta.bounds.getD (index + 1) 0)
  else none

/-- Interpolation strategies available to a `Timeseries`
(`InterpolationStrategy`, strategies/mod.rs): a closed variant of three
kinds, each carrying its `extrapolate` flag. -/
inductive InterpolationStrategy where
  | linear : Bool → InterpolationStrategy
  | previous : Bool → InterpolationStrategy
  | next : Bool → InterpolationStrategy
deriving DecidableEq

/-- `Timeseries<T>` (timeseries.rs:176-189). `latest` is an `isize` in the
source, hence `ℤ` here. -/
structure Timeseries where
  units : String
  values : List FloatVal
  time_axis : TimeAxis
  latest : ℤ
  interpolation_strategy : InterpolationStrategy
deriving DecidableEq

/-- `Timeseries::new` (timeseries.rs:195-217): asserts
`values.len() == time_axis.values().len()` and computes `latest` as
`values.iter().take_while(|x| !x.is_nan()).count()` — i.e. the COUNT of
leading non-NaN values (not the last such index). -/
def Timeseries.new (values : List FloatVal) (time_axis : TimeAxis)
    (units : String) (interpolation_strategy : InterpolationStrategy) :
    Except String Timeseries :=
  if values.length = time_axis.values.length then
    .ok { units := units, values := values, time_axis := time_axis,
          latest := Int.ofNat (values.takeWhile (fun x => !x.isNan)).length,
          interpolation_strategy := interpolation_strategy }
  else .error "assertion failed: values.len() == time_axis.values().len()"

/-- `Timeseries::len` (timeseries.rs:240-242). -/
def Timeseries.len (ts : Timeseries) : Nat := ts.values.length

/-- `Timeseries::set` (timeseries.rs:245-252): asserts the index is in
range, writes the value and, when it is not NaN, sets
`latest = max(latest, time_index)`. -/
def Timeseries.set (ts : Timeseries) (time_index : Nat) (value : FloatVal) :
    Except String Timeseries :=
  if time_index < ts.len then
    let newLatest :=
      if !value.isNan then max ts.latest (Int.ofNat time_index) else ts.latest
    .ok { ts with values := ts.values.set time_index value, latest := newLatest }
  else .error "assertion failed: time_index < self.len()"

/-- `Timeseries::latest_value` (timeseries.rs:264-269). The source matches
on `(self.latest < 0) & (self.latest.to_usize().unwrap() < self.len())`:
both operands of `&` are evaluated, so a negative `latest` panics inside
`to_usize().unwrap()` before the match; the `true` arm (`None`) is
unreachable because it needs `latest < 0` as well; the `false` arm indexes
`values[latest]`, which panics when `latest >= len`. -/
def Timeseries.latest_value (ts : Timeseries) : Except String (Option FloatVal) :=
  if ts.latest < 0 then
    .error "called Option::unwrap on a None value"
  else
    if (ts.latest < 0) && (ts.latest.toNat < ts.len) then
      .ok none
    else
      match ts.values.get? ts.latest.toNat with
      | some v => .ok (some v)
      | none => .error "index out of bounds"

/-- `Timeseries::new_empty` (timeseries.rs:271-280): an all-NaN series. -/
def Timeseries.new_empty (time_axis : TimeAxis) (units : String)
    (interpolation_strategy : InterpolationStrategy) : Except String Timeseries :=
  Timeseries.new (List.replicate time_axis.len none) time_axis units
    interpolation_strategy

/-! ## Interpolation (interpolate/mod.rs, interpolate/linear_spline.rs,
interpolate/strategies/mod.rs)

`is_close!(a, b)` (exact-match detection on boundaries) is modelled as
equality on `ℚ`. `slice::binary_search_by` over a strictly sorted array
returns the index of an exact match, or the insertion point otherwise;
over a strictly sorted list both equal the number of elements smaller
than the target, which is how `find_segment_index` is embedded. -/

/-- `SegmentOptions` (interpolate/mod.rs:7-13). -/
inductive SegmentOptions where
  | InSegment
  | ExtrapolateBackward
  | ExtrapolateForward
  | OnBoundary
deriving DecidableEq

/-- Indexing a list, modelling Rust indexing that panics out of bounds. -/
def listIdx (l : List ℚ) (i : Nat) : Except String ℚ :=
  match l.get? i with
  | some v => .ok v
  | none => .error "index out of bounds"

/-- `find_segment_index` (interpolate/mod.rs:63-71): binary search over the
sorted `time_bounds`, insertion point on no exact match. -/
def find_segment_index (target : ℚ) (time_bounds : List ℚ) : Nat :=
  (time_bounds.takeWhile (fun v => v < target)).length

/-- `Interpolate::find_segment` (interpolate/mod.rs:19-61): classifies the
target against the bounds, failing when extrapolation is needed but not
allowed. The segment index accompanies only `OnBoundary`/`InSegment`. -/
def find_segment (target : ℚ) (time_bounds : List ℚ)
    (allow_extrapolation : Bool) :
    Except String (SegmentOptions × Option Nat) :=
  let end_segment_idx := find_segment_index target time_bounds
  let needs_extrap_forward := end_segment_idx == time_bounds.length
  let needs_extrap_backward := (!needs_extrap_forward) && (end_segment_idx == 0)
  if (!needs_extrap_forward) && (time_bounds.getD end_segment_idx 0 == target) then
    .ok (.OnBoundary, some end_segment_idx)
  else
    let needs_extrap := needs_extrap_backward || needs_extrap_forward
    if needs_extrap && (!allow_extrapolation) then
      if needs_extrap_backward then
        .error "Extrapolation is not allowed (start of range)"
      else
        .error "Extrapolation is not allowed (end of range)"
    else if needs_extrap_backward then .ok (.ExtrapolateBackward, none)
    else if needs_extrap_forward then .ok (.ExtrapolateForward, none)
    else .ok (.InSegment, some end_segment_idx)

/-- `find_segment` (interpolate/strategies/mod.rs): the later draft used by
`Interp1dLinearSpline`; identical classification, but the segment index is
a plain `usize` (`0` for backward, `time_bounds.len()` for forward). -/
def find_segment_strat (target : ℚ) (time_bounds : List ℚ)
    (extrapolate : Bool) : Except String (SegmentOptions × Nat) :=
  let end_segment_idx := find_segment_index target time_bounds
  let needs_extrap_forward := end_segment_idx == time_bounds.length
  let needs_extrap_backward := (!needs_extrap_forward) && (end_segment_idx == 0)
  if (!needs_extrap_forward) && (time_bounds.getD end_segment_idx 0 == target) then
    .ok (.OnBoundary, end_segment_idx)
  else
    let needs_extrap := needs_extrap_backward || needs_extrap_forward
    if needs_extrap && (!extrapolate) then
      if needs_extrap_backward then
        .error "Extrapolation is not allowed (start of range)"
      else
        .error "Extrapolation is not allowed (end of range)"
    else if needs_extrap_backward then .ok (.ExtrapolateBackward, 0)
    else if needs_extrap_forward then .ok (.ExtrapolateForward, time_bounds.length)
    else .ok (.InSegment, end_segment_idx)

/-- `LinearSpline::interpolate` (interpolate/mod.rs:99-158). Note that the
`ExtrapolateForward` arm of the source reads `time[0], y[0], time[1], y[1]`
— the first two points, same as the backward arm (its comment is the
copy-pasted "Use first two points") — and no index clipping is applied. -/
def LinearSpline.interpolate (time : List ℚ) (y : List ℚ)
    (allow_extrapolation : Bool) (time_target : ℚ) : Except String ℚ := do
  let seg ← find_segment time_target time allow_extrapolation
  let segment_options := seg.1
  let end_segment_idx := seg.2
  if segment_options = .OnBoundary then
    match end_segment_idx with
    | some k => listIdx y k
    | none => .error "called Option::unwrap on a None value"
  else do
    let quad ←
      match segment_options with
      | .ExtrapolateBackward => do
          let time1 ← listIdx time 0
          let y1 ← listIdx y 0
          let time2 ← listIdx time 1
          let y2 ← listIdx y 1
          pure (time1, time2, y1, y2)
      | .ExtrapolateForward => do
          let time1 ← listIdx time 0
          let y1 ← listIdx y 0
          let time2 ← listIdx time 1
          let y2 ← listIdx y 1
          pure (time1, time2, y1, y2)
      | .InSegment =>
          match end_segment_idx with
          | some k => do
              let time1 ← listIdx time (k - 1)
              let y1 ← listIdx y (k - 1)
              let time2 ← listIdx time k
              let y2 ← listIdx y k
              pure (time1, time2, y1, y2)
          | none => .error "called Option::unwrap on a None value"
      | .OnBoundary => .error "All other options handled"
    let m := (quad.2.2.2 - quad.2.2.1) / (quad.2.1 - quad.1)
    .ok (m * (time_target - quad.1) + quad.2.2.1)

/-- `Interp1dLinearSpline::interpolate` (interpolate/linear_spline.rs:38-94),
paired with the strategies-draft `find_segment` whose index is a plain
`usize`. The index is clipped to `min(k, y.len() - 1)` before use; backward
extrapolation reads the first two points, forward the last two. -/
def Interp1dLinearSpline.interpolate (time : List ℚ) (y : List ℚ)
    (allow_extrapolation : Bool) (time_target : ℚ) : Except String ℚ := do
  let seg ← find_segment_strat time_target time allow_extrapolation
  let segment_options := seg.1
  let end_segment_idx := min seg.2 (y.length - 1)
  if segment_options = .OnBoundary then
    listIdx y end_segment_idx
  else do
    let quad ←
      match segment_options with
      | .ExtrapolateBackward => do
          let time1 ← listIdx time 0
          let y1 ← listIdx y 0
          let time2 ← listIdx time 1
          let y2 ← listIdx y 1
          pure (time1, time2, y1, y2)
      | .ExtrapolateForward => do
          let time1 ← listIdx time (y.length - 2)
          let y1 ← listIdx y (y.length - 2)
          let time2 ← listIdx time (y.length - 1)
          let y2 ← listIdx y (y.length - 1)
          pure (time1, time2, y1, y2)
      | .InSegment | .OnBoundary => do
          let time1 ← listIdx time (end_segment_idx - 1)
          let y1 ← listIdx y (end_segment_idx - 1)
          let time2 ← listIdx time end_segment_idx
          let y2 ← listIdx y end_segment_idx
          pure (time1, time2, y1, y2)
    let m := (quad.2.2.2 - quad.2.2.1) / (quad.2.1 - quad.1)
    .ok (m * (time_target - quad.1) + quad.2.2.1)

/-! ## Component contract (component.rs) -/

/-- `ParameterType` (component.rs:93-98). The later drafts rename this
`RequirementType` with `InputAndOutput` expressed by listing a name under
both `Input` and `Output`. -/
inductive ParameterType where
  | Constant
  | Input
  | Output
deriving DecidableEq

/-- `ParameterDefinition` (component.rs:100-105); the later drafts name it
`RequirementDefinition`. -/
structure ParameterDefinition where
  name : String
  unit : String
  parameter_type : ParameterType
deriving DecidableEq

/-- `ParameterDefinition::new` (component.rs:107-115). -/
def ParameterDefinition.new (name : String) (unit : String)
    (parameter_type : ParameterType) : ParameterDefinition :=
  { name := name, unit := unit, parameter_type := parameter_type }

/-- `InputState` (component.rs:23-33): parallel value and name vectors. -/
structure InputState where
  values : List ℚ
  names : List String
deriving DecidableEq

/-- `InputState::new` (component.rs:30-33): asserts equal lengths. -/
def InputState.new (values : List ℚ) (names : List String) :
    Except String InputState :=
  if values.length = names.length then .ok { values := values, names := names }
  else .error "assertion failed: values.len() == names.len()"

/-- `InputState::empty` (used by `ModelBuilder::new`). -/
def InputState.empty : InputState := { values := [], names := [] }

/-- `State::get` (component.rs:17-20): position lookup, panicking when the
name is absent. -/
def InputState.get (s : InputState) (name : String) : Except String ℚ :=
  match s.names.findIdx? (fun x => x == name) with
  | some index =>
      match s.values.get? index with
      | some v => .ok v
      | none => .error "called Option::unwrap on a None value"
  | none => .error "called Option::unwrap on a None value"

/-- `InputState::has` (used by `ModelBuilder::build` for initial values). -/
def InputState.has (s : InputState) (name : String) : Bool :=
  s.names.contains name

/-- `OutputState` (component.rs:58-66): structurally identical to
`InputState`; the distinction is documentary. -/
structure OutputState where
  values : List ℚ
  names : List String
deriving DecidableEq

/-- `OutputState::new` (component.rs:64-67). -/
def OutputState.new (values : List ℚ) (names : List String) :
    Except String OutputState :=
  if values.length = names.length then .ok { values := values, names := names }
  else .error "assertion failed: values.len() == names.len()"

/-! ## TimeseriesCollection (timeseries_collection.rs) -/

/-- `VariableType` (timeseries_collection.rs). -/
inductive VariableType where
  | Exogenous
  | Endogenous
deriving DecidableEq

/-- `TimeseriesItem` (timeseries_collection.rs). -/
structure TimeseriesItem where
  timeseries : Timeseries
  name : String
  variable_type : VariableType
deriving DecidableEq

/-- `TimeseriesCollection` (timeseries_collection.rs): a vector of items. -/
abbrev TimeseriesCollection := List TimeseriesItem

/-- `TimeseriesCollection::add_timeseries` (timeseries_collection.rs:38-52):
panics if a timeseries with the same name already exists, otherwise pushes
the new item. -/
def TimeseriesCollection.add_timeseries (c : TimeseriesCollection)
    (name : String) (timeseries : Timeseries) (variable_type : VariableType) :
    Except String TimeseriesCollection :=
  if c.any (fun x => x.name == name) then
    .error "timeseries already exists"
  else
    .ok (c ++ [{ timeseries := timeseries, name := name,
                 variable_type := variable_type }])

/-- `TimeseriesCollection::get_timeseries_by_name` (timeseries_collection.rs);
`model.rs` calls it `get_timeseries`. -/
def TimeseriesCollection.get_timeseries (c : TimeseriesCollection)
    (name : String) : Option Timeseries :=
  (c.find? (fun x => x.name == name)).map (fun item => item.timeseries)

/-- The runner's mutable write `get_timeseries_mut(key).unwrap().set(i, v)`
(model.rs:307-308): replaces the named series in place, panicking when the
name is absent (the `unwrap`) or when `set` panics. -/
def TimeseriesCollection.setAtName (c : TimeseriesCollection) (name : String)
    (time_index : Nat) (value : FloatVal) : Except String TimeseriesCollection :=
  match c with
  | [] => .error "called Option::unwrap on a None value"
  | item :: rest =>
      if item.name == name then do
        let ts ← item.timeseries.set time_index value
        .ok ({ item with timeseries := ts } :: rest)
      else do
        let rest2 ← TimeseriesCollection.setAtName rest name time_index value
        .ok (item :: rest2)

/-! ## Component (component.rs:134-198)

Heterogeneous components are modelled as a structure holding the declared
definitions plus the `extract_state` and `solve` capabilities; the trait's
default accessors become functions of the structure. -/

/-- A component: declared definitions plus its behaviour. -/
structure Component where
  definitions : List ParameterDefinition
  extractState : TimeseriesCollection → Time → Except String InputState
  solveFn : Time → Time → InputState → Except String OutputState

/-- `Component::inputs` (component.rs:138-144): definitions filtered to
`ParameterType::Input`. -/
def Component.inputs (c : Component) : List ParameterDefinition :=
  c.definitions.filter (fun d => d.parameter_type == ParameterType.Input)

/-- `Component::input_names` (component.rs:145-147). -/
def Component.input_names (c : Component) : List String :=
  c.inputs.map (fun d => d.name)

/-- `Component::outputs` (component.rs:155-161): definitions filtered to
`ParameterType::Output`. -/
def Component.outputs (c : Component) : List ParameterDefinition :=
  c.definitions.filter (fun d => d.parameter_type == ParameterType.Output)

/-- `Component::output_names` (component.rs:162-164). The source body is
`self.inputs().into_iter().map(|d| d.name).collect()`: it maps over
`inputs()`, not `outputs()`. -/
def Component.output_names (c : Component) : List String :=
  c.inputs.map (fun d => d.name)

/-! ## Component graph and builder (model.rs) -/

/-- `VariableDefinition` (model.rs:15-27). -/
structure VariableDefinition where
  name : String
  unit : String
deriving DecidableEq

/-- A directed edge of the component graph: source node, target node and
the optional `RequirementDefinition` label (model.rs:160). -/
abbrev GraphEdge := Nat × Nat × Option ParameterDefinition

/-- `verify_definition` (model.rs:49-65): if the name is known its unit
must match exactly (`assert_eq!`), otherwise the definition is recorded.
The `HashMap` is modelled as an association list in insertion order. -/
def verify_definition (definitions : List (String × VariableDefinition))
    (definition : ParameterDefinition) :
    Except String (List (String × VariableDefinition)) :=
  match definitions.find? (fun p => p.1 == definition.name) with
  | some existing =>
      if existing.2.unit == definition.unit then .ok definitions
      else .error "assertion failed: existing.unit == definition.unit"
  | none =>
      .ok (definitions ++
        [(definition.name,
          { name := definition.name, unit := definition.unit })])

/-- One breadth-limited closure step used by the cycle test below. -/
def reachAux (edges : List (Nat × Nat)) : Nat → List Nat → List Nat
  | 0, vs => vs
  | fuel + 1, vs =>
      let next := ((edges.filter
        (fun e => vs.contains e.1 && !vs.contains e.2)).map
          (fun e => e.2)).eraseDups
      match next with
      | [] => vs
      | _ => reachAux edges fuel (vs ++ next)

/-- `b` is reachable from `a` along one or more edges concatenated after a
first step out of `a`. -/
def reaches (edges : List (Nat × Nat)) (a b : Nat) : Bool :=
  (reachAux edges (edges.length + 1) [a]).contains b

/-- `is_valid_graph` (model.rs:72-89). The source runs petgraph's
`depth_first_search` and returns `is_err()`, i.e. `true` exactly when the
DFS reports a back edge between two DISTINCT nodes; for a finite directed
graph that happens exactly when some cycle passes through at least two
distinct nodes (a graph whose only cycles are self-loops yields only
self back edges). The external petgraph traversal is modelled through that
contract: a cycle through distinct nodes exists iff some edge `u -> v`
with `u ≠ v` has `u` reachable from `v`. Despite its name the function
returns `true` for INVALID graphs; the caller compensates by asserting
the negation (model.rs:218). -/
def is_valid_graph (edges : List (Nat × Nat)) : Bool :=
  edges.any (fun e => (e.1 != e.2) && reaches edges e.2 e.1)

/-- Insert-or-override into the `endrogoneous` association list
(`HashMap::insert` in model.rs:205,211). -/
def assocInsert (l : List (String × Nat)) (k : String) (v : Nat) :
    List (String × Nat) :=
  if l.any (fun p => p.1 == k) then
    l.map (fun p => if p.1 == k then (k, v) else p)
  else l ++ [(k, v)]

/-- Intermediate state of `ModelBuilder::build` (model.rs:160-164): the
graph under construction (node 0 is the initial node: `graph.add_node(None)`),
the producer map `endrogoneous`, the accumulated list `exogenous` of
requirement names not resolved at the time they were first required, and
the unit-checked `definitions` map (kept in insertion order). -/
structure BuildState where
  nodes : List (Option Component)
  edges : List GraphEdge
  endrogoneous : List (String × Nat)
  exogenous : List String
  definitions : List (String × VariableDefinition)

/-- `requires.iter().for_each(...)` body (model.rs:173-188): a requirement
already present in `exogenous` yields an edge from the producer recorded in
`endrogoneous` (the bare `endrogoneous[&name]` indexing panics when no
producer was recorded) and sets `has_dependencies`; otherwise the name is
appended to `exogenous`. -/
def processRequirement (node : Nat) (acc : BuildState × Bool)
    (requirement : ParameterDefinition) : Except String (BuildState × Bool) := do
  let st := acc.1
  let defs ← verify_definition st.definitions requirement
  let st := { st with definitions := defs }
  if st.exogenous.contains requirement.name then
    match st.endrogoneous.find? (fun p => p.1 == requirement.name) with
    | some producer =>
        .ok ({ st with edges := st.edges ++ [(producer.2, node, some requirement)] },
             true)
    | none => .error "no entry found for key"
  else
    .ok ({ st with exogenous := st.exogenous ++ [requirement.name] }, acc.2)

/-- `provides.iter().for_each(...)` body (model.rs:198-214): record this
node as producer; a duplicate producer chains an edge from the prior
producer and overrides the record. -/
def processProvide (node : Nat) (st : BuildState)
    (requirement : ParameterDefinition) : Except String BuildState := do
  let defs ← verify_definition st.definitions requirement
  let st := { st with definitions := defs }
  match st.endrogoneous.find? (fun p => p.1 == requirement.name) with
  | none =>
      .ok { st with endrogoneous := assocInsert st.endrogoneous requirement.name node }
  | some prior =>
      .ok { st with
            edges := st.edges ++ [(prior.2, node, some requirement)],
            endrogoneous := assocInsert st.endrogoneous requirement.name node }

/-- Per-component body of the build loop (model.rs:166-215): add the node,
process requirements, link from the initial node when no dependency edge
was added, then process provided outputs. -/
def processComponent (st : BuildState) (c : Component) :
    Except String BuildState := do
  let node := st.nodes.length
  let st := { st with nodes := st.nodes ++ [some c] }
  let res ← c.inputs.foldlM (processRequirement node) (st, false)
  let st2 := res.1
  let has_dependencies := res.2
  let st3 :=
    if has_dependencies then st2
    else { st2 with edges := st2.edges ++ [(0, node, none)] }
  c.outputs.foldlM (processProvide node) st3

/-- The graph-construction phase of `ModelBuilder::build` (model.rs:160-215). -/
def buildGraph (components : List Component) : Except String BuildState :=
  components.foldlM processComponent
    { nodes := [none], edges := [], endrogoneous := [], exogenous := [],
      definitions := [] }

/-- `ModelBuilder` (model.rs:37-42). -/
structure ModelBuilder where
  components : List Component
  exogenous_variables : TimeseriesCollection
  initial_values : InputState
  time_axis : TimeAxis

/-- `ModelBuilder::new` (model.rs:92-99). The default axis is
`TimeAxis::from_values(Array::range(2000.0, 2100.0, 1.0))`, whose bounds
evaluate to the 101 integers 2000..2100; the constant result of that
(infallible on this input) call is inlined here. -/
def ModelBuilder.new : ModelBuilder :=
  { components := [], exogenous_variables := [],
    initial_values := InputState.empty,
    time_axis := { bounds := (List.range 101).map (fun i => 2000 + (i : ℚ)) } }

/-- `ModelBuilder::with_component` (model.rs:102-105). -/
def ModelBuilder.with_component (b : ModelBuilder) (component : Component) :
    ModelBuilder :=
  { b with components := b.components ++ [component] }

/-- `ModelBuilder::with_exogenous_variable` (model.rs:110-121): registers
the series in the builder's collection under `VariableType::Exogenous`
via `add_timeseries` (which panics on a duplicate name). -/
def ModelBuilder.with_exogenous_variable (b : ModelBuilder) (name : String)
    (timeseries : Timeseries) : Except String ModelBuilder := do
  let ev ← b.exogenous_variables.add_timeseries name timeseries
    VariableType.Exogenous
  .ok { b with exogenous_variables := ev }

/-- `ModelBuilder::with_exogenous_collection` (model.rs:126-132): adds each
item of the supplied collection with `add_timeseries`. -/
def ModelBuilder.with_exogenous_collection (b : ModelBuilder)
    (collection : TimeseriesCollection) : Except String ModelBuilder := do
  let ev ← collection.foldlM
    (fun acc x => acc.add_timeseries x.name x.timeseries x.variable_type)
    b.exogenous_variables
  .ok { b with exogenous_variables := ev }

/-- `ModelBuilder::with_time_axis` (model.rs:150-153). -/
def ModelBuilder.with_time_axis (b : ModelBuilder) (time_axis : TimeAxis) :
    ModelBuilder :=
  { b with time_axis := time_axis }

/-- `Model` (model.rs:263-269). -/
structure Model where
  nodes : List (Option Component)
  edges : List GraphEdge
  initial_node : Nat
  collection : TimeseriesCollection
  time_axis : TimeAxis
  time_index : Nat

/-- The collection-preparation phase of `ModelBuilder::build`
(model.rs:220-256). A name in `exogenous`: with an initial value, an empty
endogenous series seeded at index 0; otherwise the supplied exogenous
series if present — and when data is missing the source merely prints
"Requires data for {name}" (the `panic!` on that line is commented out)
and adds NOTHING. Other names get empty endogenous placeholders. The
model.rs draft calls `Timeseries::new_empty(axis, unit)` without a
strategy argument; the timeseries.rs default (linear with extrapolation)
is supplied here. -/
def buildCollection (b : ModelBuilder) (st : BuildState) :
    Except String TimeseriesCollection :=
  st.definitions.foldlM
    (fun coll p =>
      let d := p.2
      if st.exogenous.contains d.name then
        if b.initial_values.has d.name then do
          let ts ← Timeseries.new_empty b.time_axis d.unit
            (InterpolationStrategy.linear true)
          let v ← b.initial_values.get d.name
          let ts ← ts.set 0 (some v)
          coll.add_timeseries d.name ts VariableType.Endogenous
        else
          match b.exogenous_variables.get_timeseries d.name with
          | some ts => coll.add_timeseries d.name ts VariableType.Exogenous
          | none => .ok coll
      else do
        let ts ← Timeseries.new_empty b.time_axis d.unit
          (InterpolationStrategy.linear true)
        coll.add_timeseries d.name ts VariableType.Endogenous)
    []

/-- `ModelBuilder::build` (model.rs:158-260): construct the graph, assert
`!is_valid_graph(&graph)` (i.e. panic when a cycle through distinct nodes
exists), prepare the collection and return the model with
`time_index = 0`. -/
def ModelBuilder.build (b : ModelBuilder) : Except String Model := do
  let st ← buildGraph b.components
  if is_valid_graph (st.edges.map (fun e => (e.1, e.2.1))) then
    .error "assertion failed: !is_valid_graph(&graph)"
  else do
    let collection ← buildCollection b st
    .ok { nodes := st.nodes, edges := st.edges, initial_node := 0,
          collection := collection, time_axis := b.time_axis, time_index := 0 }

/-- `Model::current_time` (model.rs:291-293): `axis.at(time_index).unwrap()`. -/
def Model.current_time (m : Model) : Except String Time :=
  match m.time_axis.at m.time_index with
  | some t => .ok t
  | none => .error "called Option::unwrap on a None value"

/-- `Model::current_time_bounds` (model.rs:294-296). -/
def Model.current_time_bounds (m : Model) : Except String (Time × Time) :=
  match m.time_axis.at_bounds m.time_index with
  | some p => .ok p
  | none => .error "called Option::unwrap on a None value"

/-- Breadth-first traversal worker modelling `petgraph::visit::Bfs`
(model.rs:322-323): nodes are discovered once, in queue order. -/
def bfsAux (edges : List (Nat × Nat)) : Nat → List Nat → List Nat → List Nat
  | 0, _, visited => visited
  | _ + 1, [], visited => visited
  | fuel + 1, q :: rest, visited =>
      let nbrs := (edges.filter (fun e => e.1 == q)).map (fun e => e.2)
      let fresh := (nbrs.filter
        (fun n => !(visited.contains n) && !(rest.contains n) && (n != q))).eraseDups
      bfsAux edges fuel (rest ++ fresh) (visited ++ [q])

/-- The node visit order of `Model::step_model`. -/
def Model.bfsOrder (m : Model) : List Nat :=
  bfsAux (m.edges.map (fun e => (e.1, e.2.1))) (m.nodes.length + 1)
    [m.initial_node] []

/-- `Model::process_node` (model.rs:298-314): extract the input state at
the current time, solve over the current bounds, and write each output
entry at `time_index + 1` through `get_timeseries_mut(key).unwrap()`. A
component error is logged and swallowed (the collection is untouched). -/
def Model.process_node (m : Model) (c : Component) : Except String Model := do
  let t ← m.current_time
  let input_state ← c.extractState m.collection t
  let bounds ← m.current_time_bounds
  match c.solveFn bounds.1 bounds.2 input_state with
  | .ok output_state => do
      let coll ← (List.zip output_state.names output_state.values).foldlM
        (fun coll kv =>
          TimeseriesCollection.setAtName coll kv.1 (m.time_index + 1) (some kv.2))
        m.collection
      .ok { m with collection := coll }
  | .error _ => .ok m

/-- `Model::step_model` (model.rs:321-331): BFS from the initial node,
processing every node that holds a component. -/
def Model.step_model (m : Model) : Except String Model :=
  m.bfsOrder.foldlM
    (fun acc nx =>
      match acc.nodes.get? nx with
      | some (some c) => acc.process_node c
      | _ => .ok acc)
    m

/-- `Model::step` (model.rs:334-339): assert `time_index < axis.len()`,
run one model step, then increment `time_index`. -/
def Model.step (m : Model) : Except String Model :=
  if m.time_index < m.time_axis.len then do
    let m2 ← m.step_model
    .ok { m2 with time_index := m2.time_index + 1 }
  else .error "assertion failed: self.time_index < self.time_axis.len()"

/-- Fuel-indexed unfolding of the `run` loop. -/
def Model.runAux : Nat → Model → Except String Model
  | 0, m => .ok m
  | fuel + 1, m =>
      if m.time_index < m.time_axis.len then do
        let m2 ← m.step
        Model.runAux fuel m2
      else .ok m

/-- `Model::run` (model.rs:342-346): step while `time_index < axis.len()`.
Each successful `step` raises `time_index` by one, so
`axis.len() - time_index` steps of fuel make the embedding total. -/
def Model.run (m : Model) : Except String Model :=
  Model.runAux (m.time_axis.len - m.time_index) m

/-! ## Concrete components and scenarios used by the claims -/

/-- `TestComponent::definitions` (example_components.rs / component.rs:219-232):
one input `Emissions|CO2` (GtCO2) and one output `Concentrations|CO2` (ppm). -/
def testComponentDefinitions : List ParameterDefinition :=
  [ParameterDefinition.new "Emissions|CO2" "GtCO2" ParameterType.Input,
   ParameterDefinition.new "Concentrations|CO2" "ppm" ParameterType.Output]

/-- The `TestComponent` with parameter `p` (example_components.rs):
`extract_state` ignores the collection and returns the constant `1.3`
keyed by `input_names()`; `solve` multiplies the extracted emission by `p`
and keys the result by `self.output_names()` — which, through the trait
default of component.rs:162-164, is `inputs().map(name)`, inlined here. -/
def testComponent (p : ℚ) : Component :=
  { definitions := testComponentDefinitions,
    extractState := fun _ _ =>
      InputState.new [13/10]
        ((testComponentDefinitions.filter
          (fun d => d.parameter_type == ParameterType.Input)).map
            (fun d => d.name)),
    solveFn := fun _ _ input_state => do
      let emission_co2 ← input_state.get "Emissions|CO2"
      OutputState.new [emission_co2 * p]
        ((testComponentDefinitions.filter
          (fun d => d.parameter_type == ParameterType.Input)).map
            (fun d => d.name)) }

/-- The model of the `step`/`build` tests in model.rs:376-404: axis from
values `[2020, 2021, 2022, 2023, 2024]` and a single `TestComponent`
with `p = 0.5`; no exogenous data and no initial values are supplied. -/
def stepTestModel : Except String Model := do
  let ta ← TimeAxis.from_values [2020, 2021, 2022, 2023, 2024]
  ((ModelBuilder.new.with_time_axis ta).with_component
    (testComponent (1/2))).build

/-- Placeholder behaviour for components whose `extract_state`/`solve` are
irrelevant to graph construction. -/
def unusedExtract : TimeseriesCollection → Time → Except String InputState :=
  fun _ _ => .error "unused"

/-- Placeholder `solve` for graph-only components. -/
def unusedSolve : Time → Time → InputState → Except String OutputState :=
  fun _ _ _ => .error "unused"

/-- A component that only OUTPUTS the variable `x`. -/
def compOutX : Component :=
  { definitions := [ParameterDefinition.new "x" "u" ParameterType.Output],
    extractState := unusedExtract, solveFn := unusedSolve }

/-- A component that only INPUTS the variable `x`. -/
def compInX : Component :=
  { definitions := [ParameterDefinition.new "x" "u" ParameterType.Input],
    extractState := unusedExtract, solveFn := unusedSolve }

/-- A component that both inputs and outputs `x` (a carried state
variable, listed under both roles as the drafts do). -/
def compInOutX : Component :=
  { definitions := [ParameterDefinition.new "x" "u" ParameterType.Input,
      ParameterDefinition.new "x" "u" ParameterType.Output],
    extractState := unusedExtract, solveFn := unusedSolve }

/-- Mutual-dependency pair, first member: requires `b_out`, produces
`a_out`. -/
def compMutA : Component :=
  { definitions := [ParameterDefinition.new "b_out" "u" ParameterType.Input,
      ParameterDefinition.new "a_out" "u" ParameterType.Output],
    extractState := unusedExtract, solveFn := unusedSolve }

/-- Mutual-dependency pair, second member: requires `a_out`, produces
`b_out`. -/
def compMutB : Component :=
  { definitions := [ParameterDefinition.new "a_out" "u" ParameterType.Input,
      ParameterDefinition.new "b_out" "u" ParameterType.Output],
    extractState := unusedExtract, solveFn := unusedSolve }

/-- Building a model from the mutual-dependency pair (claim C5 scenario). -/
def mutualModel : Except String Model :=
  ((ModelBuilder.new.with_component compMutA).with_component compMutB).build

/-- A minimal concrete timeseries (1 step, value 1), used for collection
registration scenarios. -/
def tinyTimeseries : Timeseries :=
  { units := "", values := [some 1], time_axis := { bounds := [0, 1] },
    latest := 1, interpolation_strategy := InterpolationStrategy.linear true }

/-- A 3-step axis with bounds `[0, 1, 2, 3]`. -/
def axis3 : TimeAxis := { bounds := [0, 1, 2, 3] }

/-- Project the panic message out of an embedded computation. -/
def errorOf {α : Type} (e : Except String α) : Option String :=
  match e with
  | .error s => some s
  | .ok _ => none

/-- Decidable equality of embedded outcomes (needed to evaluate the
closed claims below; `Except` does not derive it). -/
instance exceptDecEq {e a : Type} [DecidableEq e] [DecidableEq a] :
    DecidableEq (Except e a) := fun x y =>
  match x, y with
  | .error u, .error v =>
      match decEq u v with
      | isTrue h => isTrue (h ▸ rfl)
      | isFalse h => isFalse (fun hh => h (Except.error.inj hh))
  | .ok u, .ok v =>
      match decEq u v with
      | isTrue h => isTrue (h ▸ rfl)
      | isFalse h => isFalse (fun hh => h (Except.ok.inj hh))
  | .error _, .ok _ => isFalse (fun hh => Except.noConfusion hh)
  | .ok _, .error _ => isFalse (fun hh => Except.noConfusion hh)

/-! ## Helper lemmas -/

/-- Unfolding `check_monotonic_increasing` over two explicit heads. -/
theorem check_monotonic_cons (x y : Time) (rest : List Time) :
    check_monotonic_increasing (x :: y :: rest)
      = (decide (x < y) && check_monotonic_increasing (y :: rest)) := by
  simp [check_monotonic_increasing, List.take_succ_cons, List.zip_cons_cons,
    List.all_cons]

/-- A list passing `check_monotonic_increasing` increases at every adjacent
pair. -/
theorem check_monotonic_adjacent :
    ∀ (l : List Time), check_monotonic_increasing l = true →
      ∀ i : Nat, i + 1 < l.length → l.getD i 0 < l.getD (i + 1) 0 := by
  intro l
  induction l with
  | nil => intro _ i hi; simp at hi
  | cons x t ih =>
      cases t with
      | nil => intro _ i hi; simp at hi
      | cons y rest =>
          intro h i hi
          rw [check_monotonic_cons] at h
          have h1 : x < y := by
            have := (Bool.and_eq_true _ _).mp h
            exact of_decide_eq_true this.1
          have h2 : check_monotonic_increasing (y :: rest) = true := by
            have := (Bool.and_eq_true _ _).mp h
            exact this.2
          cases i with
          | zero => simpa using h1
          | succ j =>
              have hj : j + 1 < (y :: rest).length := by
                simpa [Nat.succ_lt_succ_iff] using hi
              simpa using ih h2 j hj


/-! ## Claims

Lean core marks `Rat` field operations `@[irreducible]`; the local
`semireducible` attribute lines below only restore kernel-style reduction
for evaluating the closed statements and change no definition. -/

/-- Claim C1. The claimed invariant — `latest` equals the largest index `k`
with `values[0..=k]` non-sentinel, or −1 if none — fails already at
construction: `Timeseries::new` stores the COUNT of leading non-NaN values.
For the all-valid series `[1, 2, 3]` it stores `latest = 3` (the claimed
invariant demands 2), and for the fully-sentinel series built by
`new_empty` it stores `latest = 0` (the claim demands −1). -/
theorem claim_C1_latest_is_count :
    ((Timeseries.new [some 1, some 2, some 3] axis3 ""
        (InterpolationStrategy.linear true)).map Timeseries.latest = .ok 3)
    ∧ ((Timeseries.new_empty axis3 ""
        (InterpolationStrategy.linear true)).map Timeseries.latest = .ok 0) := by
  exact ⟨by decide, by decide⟩

/-- Claim C2, counterexample. Registering `compOutX` (outputs `x`, node 1)
and then `compInX` (inputs `x`, node 2) produces NO edge from node 1 to
node 2: the builder keys edge creation on `exogenous` (names previously
REQUIRED), not on previously advertised outputs. -/
theorem claim_C2_no_edge_from_producer :
    (buildGraph [compOutX, compInX]).map
      (fun st => st.edges.any (fun e => (e.1 == 1) && (e.2.1 == 2)))
      = .ok false := by
  decide

/-- Claim C2, amended. A dependency edge is created only for a requirement
whose name is already in the accumulated `exogenous` list of previously
required names (the edge then leaves the recorded producer): the
output-then-input registration yields only the two initial-node edges and
records `x` as truly exogenous, whereas when the producer itself had
already required `x` (`compInOutX`), the later consumer gets the edge
`1 → 2` labelled with its requirement and no initial-node link. -/
theorem claim_C2_edge_needs_prior_requirement :
    ((buildGraph [compOutX, compInX]).map
        (fun st => (st.edges, st.exogenous))
      = .ok ([(0, 1, none), (0, 2, none)], ["x"]))
    ∧ ((buildGraph [compInOutX, compInX]).map (fun st => st.edges)
      = .ok [(0, 1, none),
             (1, 2, some (ParameterDefinition.new "x" "u" ParameterType.Input))]) := by
  exact ⟨by decide, by decide⟩

attribute [local semireducible] Rat.sub Rat.add Rat.mul Rat.inv in
/-- Claim C3. Against the claimed rule, the draft `LinearSpline`
(interpolate/mod.rs) extrapolates FORWARD through the FIRST two points:
over times `[0, 1/2, 1, 3/2]`, values `[5, 8, 9]` at target 2 it returns
17 (slope 6 through (0,5),(1/2,8)), not the 11 that the
last-two-points rule demands. And `Interp1dLinearSpline`
(interpolate/linear_spline.rs), queried exactly at the final bound 3/2,
hits the `OnBoundary` fast path with the clipped index and returns
`y[2] = 9` instead of the extrapolated 10 that its own
`test_linear_extrapolation` expects there. -/
theorem claim_C3_extrapolation_slips :
    (Interp1dLinearSpline.interpolate [0, 1/2, 1, 3/2] [5, 8, 9] true (3/2)
      = .ok 9)
    ∧ (Interp1dLinearSpline.interpolate [0, 1/2, 1, 3/2] [5, 8, 9] true (3/2)
      ≠ .ok 10)
    ∧ (LinearSpline.interpolate [0, 1/2, 1, 3/2] [5, 8, 9] true 2 = .ok 17)
    ∧ (LinearSpline.interpolate [0, 1/2, 1, 3/2] [5, 8, 9] true 2
      ≠ .ok 11) := by
  exact ⟨by decide, by decide, by decide, by decide⟩

attribute [local semireducible] Rat.sub Rat.add Rat.mul Rat.inv in
/-- Claim C4. Building the step-test model — whose required exogenous
input `Emissions|CO2` has neither a supplied series nor an initial value —
SUCCEEDS: model.rs:245 merely prints "Requires data for ..." (the panic on
that line is commented out), and the resulting collection holds only the
endogenous `Concentrations|CO2` placeholder. -/
theorem claim_C4_missing_data_builds :
    (stepTestModel.isOk = true)
    ∧ (stepTestModel.map (fun m => m.collection.map (fun item => item.name))
      = .ok ["Concentrations|CO2"]) := by
  exact ⟨by decide, by decide⟩

/-- Claim C5, counterexample. The two-component mutual-dependency model
(`compMutA` requires `b_out` and produces `a_out`; `compMutB` the
converse) BUILDS successfully — no cycle error is raised. -/
theorem claim_C5_mutual_cycle_accepted : mutualModel.isOk = true := by
  decide

/-- Claim C5, amended. The graph-validity check itself does flag a cycle
through two distinct nodes (and passes a graph whose only cycle is a
self-loop), but the mutual-dependency build never creates inter-component
edges — each required name had never been required before — so only the
two initial-node edges exist and the cycle assertion cannot fire. -/
theorem claim_C5_no_edges_no_cycle :
    (is_valid_graph [(1, 2), (2, 1)] = true)
    ∧ (is_valid_graph [(0, 1), (1, 1)] = false)
    ∧ (mutualModel.map (fun m => m.edges.map (fun e => (e.1, e.2.1)))
      = .ok [(0, 1), (0, 2)]) := by
  exact ⟨by decide, by decide, by decide⟩

attribute [local semireducible] Rat.sub Rat.add Rat.mul Rat.inv in
/-- Claim C6. On the concrete scenario (axis from values
`[2020, 2021, 2022, 2023, 2024]`, one `TestComponent`), `time_index` does
start at 0, but the FIRST `step()` already panics: the component's
`OutputState` is keyed by `output_names()` = `["Emissions|CO2"]` (the
trait default maps over inputs), a name the built collection lacks
(claim C4), so `get_timeseries_mut(..).unwrap()` fails; neither two steps
nor `run()` can complete, against the claimed `time_index` values 2 and 5. -/
theorem claim_C6_first_step_panics :
    (stepTestModel.map Model.time_index = .ok 0)
    ∧ (errorOf (stepTestModel.bind Model.step)
      = some "called Option::unwrap on a None value")
    ∧ ((stepTestModel.bind Model.run).isOk = false) := by
  exact ⟨by decide, by decide, by decide⟩

/-- Claim C7. `latest_value` does not behave as claimed: on the
fully-sentinel series built by `new_empty` (where `latest = 0` by claim
C1's bug) it returns `Some(NaN)` rather than the claimed `None`, and on a
fully-valid series (where `latest = len`) it panics indexing
`values[latest]` out of bounds rather than returning `None` without
failing — the `(latest < 0) & (latest < len)` match arm can never yield
`None`. -/
theorem claim_C7_latest_value_misbehaves :
    ((Timeseries.new_empty axis3 ""
        (InterpolationStrategy.linear true)).bind Timeseries.latest_value
      = .ok (some none))
    ∧ ((Timeseries.new [some 1, some 2, some 3] axis3 ""
        (InterpolationStrategy.linear true)).bind Timeseries.latest_value
      = .error "index out of bounds") := by
  exact ⟨by decide, by decide⟩

/-- Claim C8, counterexample. `from_bounds` performs no monotonicity
check: the strictly decreasing bounds `[3, 2, 1]` are accepted, and the
resulting axis has `at_bounds(0) = (3, 2)` with its second component NOT
greater than its first. -/
theorem claim_C8_nonmonotone_bounds_accepted :
    (TimeAxis.from_bounds [3, 2, 1] = .ok { bounds := [3, 2, 1] })
    ∧ (((TimeAxis.mk [3, 2, 1]).at_bounds 0).map (fun p => decide (p.1 < p.2))
      = some false) := by
  exact ⟨by decide, by decide⟩

/-- Claim C8, amended. `from_bounds` requires only more than one bound
(succeeding exactly when `len(b) > 1`, with no monotonicity enforcement);
the bound-pair ordering `at_bounds(i).1 > at_bounds(i).0` is guaranteed
for every axis whose bounds pass `check_monotonic_increasing` — the check
run by `TimeAxis::new` and hence `from_values`, but not by `from_bounds`. -/
theorem claim_C8_from_bounds_amended :
    (∀ bounds : List Time,
      (TimeAxis.from_bounds bounds).isOk = decide (bounds.length > 1))
    ∧ (∀ bounds : List Time, check_monotonic_increasing bounds = true →
        ∀ (index : Nat) (p : Time × Time),
          (TimeAxis.mk bounds).at_bounds index = some p → p.1 < p.2) := by
  constructor
  · intro bounds
    by_cases h : bounds.length > 1
    · simp [TimeAxis.from_bounds, h, Except.isOk, Except.toBool]
    · simp [TimeAxis.from_bounds, h, Except.isOk, Except.toBool]
  · intro bounds h index p hp
    unfold TimeAxis.at_bounds at hp
    by_cases hi : index < (TimeAxis.mk bounds).len
    · simp only [hi, if_true] at hp
      have hlen : index + 1 < bounds.length := by
        have : index < bounds.length - 1 := hi
        omega
      have hlt := check_monotonic_adjacent bounds h index hlen
      cases hp
      simpa using hlt
    · simp [hi] at hp

/-- Witness for claim C8's amended theorem at concrete inputs. -/
theorem claim_C8_from_bounds_amended_witness :
    ((TimeAxis.from_bounds [3, 2, 1]).isOk
      = decide (([3, 2, 1] : List Time).length > 1))
    ∧ (((1 : ℚ), (2 : ℚ)).1 < ((1 : ℚ), (2 : ℚ)).2) :=
  ⟨claim_C8_from_bounds_amended.1 [3, 2, 1],
   claim_C8_from_bounds_amended.2 [1, 2, 3] (by decide) 0 (1, 2) (by decide)⟩

/-- Claim C9, counterexample. Registering an exogenous timeseries under
the name `test` twice does not replace the first registration: the second
`with_exogenous_variable` panics inside `add_timeseries`. -/
theorem claim_C9_duplicate_name_panics :
    errorOf ((ModelBuilder.new.with_exogenous_variable "test"
        tinyTimeseries).bind
      (fun b => b.with_exogenous_variable "test" tinyTimeseries))
      = some "timeseries already exists" := by
  decide

/-- Claim C9, amended. `with_exogenous_variable` / `with_exogenous_collection`
are accepted any number of times for fresh names, but registering a name
that already exists FAILS (the `add_timeseries` duplicate panic) instead
of replacing: adding succeeds exactly when no item of the collection
carries the name. -/
theorem claim_C9_add_fails_iff_duplicate :
    ∀ (c : TimeseriesCollection) (name : String) (ts : Timeseries)
      (vt : VariableType),
      (TimeseriesCollection.add_timeseries c name ts vt).isOk
        = !(c.any (fun x => x.name == name)) := by
  intro c name ts vt
  cases h : c.any (fun x => x.name == name) <;>
    simp [TimeseriesCollection.add_timeseries, h, Except.isOk, Except.toBool]

/-- Witness for claim C9's amended theorem at concrete inputs. -/
theorem claim_C9_add_fails_iff_duplicate_witness :
    (TimeseriesCollection.add_timeseries [] "test" tinyTimeseries
        VariableType.Exogenous).isOk
      = !(([] : TimeseriesCollection).any (fun x => x.name == "test")) :=
  claim_C9_add_fails_iff_duplicate [] "test" tinyTimeseries
    VariableType.Exogenous

/-- Claim C10. The trait-default `output_names` returns the names of the
component's declared INPUTS for every component (it maps over `inputs()`);
in particular `TestComponent`'s output state is keyed `Emissions|CO2`
while its declared output is `Concentrations|CO2`. -/
theorem claim_C10_output_names_map_inputs :
    (∀ c : Component, c.output_names = c.input_names)
    ∧ ((testComponent (1/2)).output_names = ["Emissions|CO2"])
    ∧ (((testComponent (1/2)).outputs).map (fun d => d.name)
      = ["Concentrations|CO2"]) := by
  exact ⟨fun c => rfl, by decide, by decide⟩

/-- Witness for claim C10's theorem at a concrete component. -/
theorem claim_C10_output_names_witness :
    (testComponent 1).output_names = (testComponent 1).input_names :=
  claim_C10_output_names_map_inputs.1 (testComponent 1)
